import Mathlib

/-!
Shallow embedding of the HealthcareGenAI document-processing application
(Django app `documents`: `models.py`, `ai_utils.py`, `services.py`,
`views.py`).  External effects — the pypdf text extraction, the hosted
Gemini model invocations via LangChain chains, the structured-output
parsing, the markdown renderer and the PDF library — are modelled as
parameters (an `Env` record of possibly-failing functions), while all of
the repository's own control flow is embedded as executable Lean
functions that mirror the Python source line by line.
-/

namespace HCG

/-- Python string slicing `s[:n]`: the first `n` characters of `s`. -/
def pyTake (s : String) (n : Nat) : String :=
  String.mk (s.toList.take n)

/-- Python `s.split(sep)[-1]`: the substring after the last occurrence of
the separator (the whole string when the separator does not occur).
`String.split` never returns an empty list, so the default is never used. -/
def py_split_last (s : String) (sep : Char) : String :=
  ((s.split (fun c => c == sep)).getLast?).getD ""

/-- Python `s.lower()`: every character lowercased. -/
def pyLower (s : String) : String :=
  String.mk (s.toList.map Char.toLower)

/-! ## models.py -/

/-- `documents/models.py` `Document`: an uploaded medical document.
`file_name` stands for the Django `FieldFile.name` (the stored path);
the Python truthiness test `if self.file` is `file_name ≠ ""`.
Timestamps are abstract ticks (`Nat`). -/
structure Document where
  id : Nat
  user : Nat
  file_name : String
  original_filename : String
  file_type : String
  file_size : Nat
  status : String
  uploaded_at : Nat
  processed_at : Option Nat
  extracted_text : String
  deriving DecidableEq, Repr

/-- `Document.STATUS_CHOICES` from `models.py`. -/
def STATUS_CHOICES : List (String × String) :=
  [("pending", "Pending Processing"),
   ("processing", "Processing"),
   ("completed", "Completed"),
   ("failed", "Failed")]

/-- `Document.save` (`models.py` lines 56–62): auto-populates
`original_filename`, `file_type` and `file_size` when a file is present and
`original_filename` is still empty, then persists.  `storage_size` is
`self.file.size`, read from the underlying stored file at save time. -/
def Document.save (d : Document) (storage_size : Nat) : Document :=
  if d.file_name ≠ "" ∧ d.original_filename = "" then
    let ofn := py_split_last d.file_name '/'
    { d with
      original_filename := ofn,
      file_type := pyLower (py_split_last ofn '.'),
      file_size := storage_size }
  else d

/-- `documents/models.py` `Summary`: an AI-generated result tied to one
`Document` (by id).  `extracted_entities` is the JSON entity map, modelled
as a string-keyed association list. -/
structure Summary where
  document : Nat
  summary_text : String
  extracted_entities : List (String × String)
  model_used : String
  confidence_score : ℚ
  is_edited : Bool
  edited_text : String
  created_at : Nat
  deriving DecidableEq, Repr

/-- `Summary.get_final_text` (`models.py` lines 115–117): the user-edited
text when `is_edited` is set, otherwise the original summary text. -/
def Summary.get_final_text (s : Summary) : String :=
  if s.is_edited then s.edited_text else s.summary_text

/-! ## External world -/

/-- A LangChain prompt template as built in `ai_utils.py`: its declared
input variables and the literal template text (partial variables such as
`format_instructions` are kept as their unexpanded placeholders). -/
structure PromptTemplate where
  input_variables : List String
  template : String
  deriving DecidableEq, Repr

/-- The environment of external effects: the outcome of
`DocumentProcessor.extract_text_from_pdf` at each path (its returned
stripped text, or the message of the exception it raises), the outcome of
`LLMChain(llm, prompt).invoke(inputs)` (the `response["text"]`, or the
raised error message), and the outcome of
`StructuredOutputParser.parse` on a raw model response. -/
structure Env where
  extract_text_from_pdf : String → Except String String
  chain_invoke : PromptTemplate → List (String × String) → Except String String
  parse_entities : String → Except String (List (String × String))

/-! ## ai_utils.py : DocumentProcessor -/

/-- `DocumentProcessor.extract_text_from_image` (`ai_utils.py` lines
33–36): OCR is an unimplemented stub returning a fixed placeholder. -/
def extract_text_from_image (_file_path : String) : String :=
  "OCR functionality coming soon. Upload PDF documents for now."

/-! ## ai_utils.py : MedicalAIAssistant -/

/-- A LangChain `ResponseSchema`: a named field with a description. -/
structure ResponseSchema where
  name : String
  description : String
  deriving DecidableEq, Repr

/-- The seven `response_schemas` of
`MedicalAIAssistant.extract_medical_entities` (`ai_utils.py` lines 58–66). -/
def response_schemas : List ResponseSchema :=
  [⟨"patient_info", "Patient demographic information (name, age, gender, ID)"⟩,
   ⟨"chief_complaint", "Main reason for visit or primary symptoms"⟩,
   ⟨"symptoms", "List of symptoms mentioned in the document"⟩,
   ⟨"diagnosis", "Medical diagnosis or provisional diagnosis"⟩,
   ⟨"medications", "Prescribed medications with dosage if mentioned"⟩,
   ⟨"treatment_plan", "Treatment recommendations and follow-up instructions"⟩,
   ⟨"vitals", "Vital signs if mentioned (BP, pulse, temperature, etc.)"⟩]

/-- The `entity_prompt` of `extract_medical_entities` (`ai_utils.py` lines
71–84); `format_instructions` is bound as a partial variable produced by
the structured output parser and kept here as its placeholder. -/
def entity_prompt : PromptTemplate :=
  { input_variables := ["text"],
    template := "You are a medical AI assistant analyzing clinical documents.
Extract the following information from the medical document below.
If any information is not present, write \"Not mentioned\".

{format_instructions}

Medical Document:
{text}

Output:" }

/-- The placeholder map returned by the `except` clause of
`extract_medical_entities` (`ai_utils.py` line 94):
`{schema.name: "Not extracted" for schema in response_schemas}`. -/
def placeholder_entities : List (String × String) :=
  response_schemas.map (fun schema => (schema.name, "Not extracted"))

/-- `MedicalAIAssistant.extract_medical_entities` (`ai_utils.py` lines
57–94): invoke the entity chain on `text[:4000]` and parse the structured
output; on any error return the placeholder map. -/
def extract_medical_entities (env : Env) (text : String) : List (String × String) :=
  match env.chain_invoke entity_prompt [("text", pyTake text 4000)] with
  | Except.error _ => placeholder_entities
  | Except.ok raw =>
    match env.parse_entities raw with
    | Except.ok parsed_output => parsed_output
    | Except.error _ => placeholder_entities

/-- The `summary_prompt` of `MedicalAIAssistant.generate_summary`
(`ai_utils.py` lines 97–114). -/
def summary_prompt : PromptTemplate :=
  { input_variables := ["document_type", "text"],
    template := "You are an expert medical documentation assistant.
Generate a clear, professional summary of this {document_type} document.

**Instructions:**
- Write in clear medical terminology
- Organize information logically (Patient Info → Chief Complaint → Diagnosis → Treatment)
- Be concise but comprehensive
- Highlight critical information
- Use bullet points for lists
- Include medication names and dosages accurately

**Medical Document:**
{text}

**Professional Medical Summary:**" }

/-- `MedicalAIAssistant.generate_summary` (`ai_utils.py` lines 96–122):
invoke the summary chain on `text[:5000]` with the document type; strip the
response, or on error return an inline error string. -/
def generate_summary (env : Env) (text : String) (document_type : String) : String :=
  match env.chain_invoke summary_prompt
      [("document_type", document_type), ("text", pyTake text 5000)] with
  | Except.ok response => response.trim
  | Except.error e => "Error generating summary: " ++ e

/-- The `discharge_prompt` of
`MedicalAIAssistant.generate_discharge_summary` (`ai_utils.py` lines
125–159). -/
def discharge_prompt : PromptTemplate :=
  { input_variables := ["text"],
    template := "You are a hospital discharge summary generator.
Create a professional discharge summary with these sections:

**DISCHARGE SUMMARY**

**1. PATIENT INFORMATION**
[Extract patient demographics]

**2. ADMISSION DATE & DISCHARGE DATE**
[Extract dates if available]

**3. PRINCIPAL DIAGNOSIS**
[Main diagnosis]

**4. HOSPITAL COURSE**
[Brief narrative of treatment received]

**5. MEDICATIONS AT DISCHARGE**
[List medications with dosage]

**6. DISCHARGE INSTRUCTIONS**
[Follow-up care, activity restrictions, diet]

**7. FOLLOW-UP**
[Appointment information]

---

**Source Document:**
{text}

**Generate Discharge Summary:**" }

/-- `MedicalAIAssistant.generate_discharge_summary` (`ai_utils.py` lines
124–167). -/
def generate_discharge_summary (env : Env) (text : String) : String :=
  match env.chain_invoke discharge_prompt [("text", pyTake text 5000)] with
  | Except.ok response => response.trim
  | Except.error e => "Error generating discharge summary: " ++ e

/-- The `referral_prompt` of `MedicalAIAssistant.generate_referral_letter`
(`ai_utils.py` lines 180–220), abridged only in that the bracketed section
directions keep their source wording. -/
def referral_prompt : PromptTemplate :=
  { input_variables := ["text"],
    template := "You are a medical referral letter processor.
Create a professional referral letter with these sections:

**REFERRAL LETTER**

**1. REFERRING PHYSICIAN INFORMATION**
[Extract referring doctor's name, specialty, contact]

**2. PATIENT INFORMATION**
[Patient demographics and identification]

**3. DATE OF REFERRAL**
[Extract date if available]

**4. REASON FOR REFERRAL**
[Primary reason patient is being referred]

**5. RELEVANT MEDICAL HISTORY**
[Past medical history, current conditions, medications]

**6. CLINICAL FINDINGS**
[Physical exam findings, test results, symptoms]

**7. SPECIALIST REQUESTED**
[Type of specialist needed - cardiology, orthopedics, etc.]

**8. URGENCY LEVEL**
[Routine, urgent, or emergency referral]

**9. SPECIFIC QUESTIONS/REQUESTS**
[What the referring physician wants addressed]

---

**Source Document:**
{text}

**Generate Referral Letter:**" }

/-- `MedicalAIAssistant.generate_referral_letter` (`ai_utils.py` lines
169–228). -/
def generate_referral_letter (env : Env) (text : String) : String :=
  match env.chain_invoke referral_prompt [("text", pyTake text 5000)] with
  | Except.ok response => response.trim
  | Except.error e => "Error generating referral letter: " ++ e

/-- The `authorization_prompt` of
`MedicalAIAssistant.generate_insurance_authorization` (`ai_utils.py` lines
241–284). -/
def authorization_prompt : PromptTemplate :=
  { input_variables := ["text"],
    template := "You are an insurance prior authorization specialist.
Create a structured prior authorization request with these sections:

**PRIOR AUTHORIZATION REQUEST**

**1. PATIENT INFORMATION**
[Patient name, DOB, insurance ID, policy number]

**2. PROVIDER INFORMATION**
[Requesting physician name, NPI number, specialty, contact]

**3. REQUESTED SERVICE/PROCEDURE**
[Specific procedure, treatment, or medication requested]

**4. DIAGNOSIS CODES (ICD-10)**
[Primary and secondary diagnosis codes with descriptions]

**5. PROCEDURE CODES (CPT/HCPCS)**
[Relevant procedure codes for requested service]

**6. CLINICAL JUSTIFICATION**
[Medical necessity, why this treatment is required]

**7. SUPPORTING DOCUMENTATION**
[Lab results, imaging, previous treatments tried]

**8. URGENCY LEVEL**
[Standard, expedited, or emergency authorization needed]

**9. DURATION OF APPROVAL REQUESTED**
[Time period or number of treatments/sessions]

**10. ALTERNATIVE TREATMENTS CONSIDERED**
[Other options tried or reasons why alternatives are unsuitable]

---

**Source Document:**
{text}

**Generate Prior Authorization Request:**" }

/-- `MedicalAIAssistant.generate_insurance_authorization` (`ai_utils.py`
lines 230–292). -/
def generate_insurance_authorization (env : Env) (text : String) : String :=
  match env.chain_invoke authorization_prompt [("text", pyTake text 5000)] with
  | Except.ok response => response.trim
  | Except.error e => "Error generating insurance authorization: " ++ e

/-- The `lab_report_prompt` of
`MedicalAIAssistant.generate_lab_report_summary` (`ai_utils.py` lines
305–348). -/
def lab_report_prompt : PromptTemplate :=
  { input_variables := ["text"],
    template := "You are a clinical laboratory specialist summarizing lab reports for physician consultations.
Create a clear lab report summary with these sections:

**LABORATORY REPORT SUMMARY**

**1. PATIENT INFORMATION**
[Patient name, age, gender, medical record number]

**2. TEST DATE & COLLECTION TIME**
[When specimens were collected]

**3. ORDERING PHYSICIAN**
[Physician who ordered the tests]

**4. TESTS PERFORMED**
[List of all laboratory tests conducted]

**5. CRITICAL/ABNORMAL FINDINGS**
[Highlight any values outside normal ranges - use ⚠️ for critical values]

**6. NORMAL FINDINGS**
[Results within normal reference ranges]

**7. CLINICAL SIGNIFICANCE**
[Interpretation of what abnormal results may indicate]

**8. TRENDING (if applicable)**
[Comparison with previous results if mentioned]

**9. RECOMMENDATIONS**
[Suggested follow-up tests or clinical actions]

**10. REFERENCE RANGES**
[Include normal ranges for key tests]

---

**Source Lab Report:**
{text}

**Generate Lab Report Summary:**" }

/-- `MedicalAIAssistant.generate_lab_report_summary` (`ai_utils.py` lines
294–356). -/
def generate_lab_report_summary (env : Env) (text : String) : String :=
  match env.chain_invoke lab_report_prompt [("text", pyTake text 5000)] with
  | Except.ok response => response.trim
  | Except.error e => "Error generating lab report summary: " ++ e

/-! ## ai_utils.py : AgentOrchestrator -/

/-- The `results` dictionary built by `AgentOrchestrator.process_document`
(`ai_utils.py` lines 369–375). -/
structure OrchestratorResult where
  status : String
  extracted_text : String
  entities : List (String × String)
  summary : String
  error : Option String
  deriving DecidableEq, Repr

/-- The document-type dispatch of `AgentOrchestrator.process_document`
(`ai_utils.py` lines 395–405): which assistant method generates the
summary for a given `doc_type`. -/
def generate_summary_for (env : Env) (extracted_text : String) (doc_type : String) : String :=
  if doc_type = "discharge" then generate_discharge_summary env extracted_text
  else if doc_type = "referral" then generate_referral_letter env extracted_text
  else if doc_type = "insurance" then generate_insurance_authorization env extracted_text
  else if doc_type = "lab_report" then generate_lab_report_summary env extracted_text
  else generate_summary env extracted_text doc_type

/-- `AgentOrchestrator.process_document` (`ai_utils.py` lines 368–415):
extract text (pdf via pypdf, images via the OCR stub, anything else raises
`Unsupported file type`), fail when the text is empty, then extract
entities and generate the summary (both total: their errors are swallowed
inside the assistant methods), and report `completed`.  Any exception in
the extraction phase is caught and reported as status `failed`. -/
def process_document (env : Env) (file_path : String) (file_type : String)
    (doc_type : String) : OrchestratorResult :=
  let extraction : Except String String :=
    if pyLower file_type = "pdf" then
      env.extract_text_from_pdf file_path
    else if pyLower file_type ∈ (["jpg", "jpeg", "png"] : List String) then
      Except.ok (extract_text_from_image file_path)
    else
      Except.error ("Unsupported file type: " ++ file_type)
  match extraction with
  | Except.error e =>
    { status := "failed", extracted_text := "", entities := [],
      summary := "", error := some e }
  | Except.ok extracted_text =>
    if extracted_text = "" then
      { status := "failed", extracted_text := extracted_text, entities := [],
        summary := "", error := some "No text could be extracted from document" }
    else
      { status := "completed",
        extracted_text := extracted_text,
        entities := extract_medical_entities env extracted_text,
        summary := generate_summary_for env extracted_text doc_type,
        error := none }

/-- The prompt template the dispatch of `process_document` (`ai_utils.py`
lines 395–405) selects for a document-type tag: each of the four special
tags routes to the assistant method built on its fixed template, every
other tag routes to `generate_summary` and its general template. -/
def summary_template_for (doc_type : String) : PromptTemplate :=
  if doc_type = "discharge" then discharge_prompt
  else if doc_type = "referral" then referral_prompt
  else if doc_type = "insurance" then authorization_prompt
  else if doc_type = "lab_report" then lab_report_prompt
  else summary_prompt

/-- The chain inputs the selected assistant method passes for a
document-type tag: the four special generators send only the truncated
text, `generate_summary` additionally sends the document type. -/
def summary_inputs_for (doc_type : String) (text : String) : List (String × String) :=
  if doc_type = "discharge" then [("text", pyTake text 5000)]
  else if doc_type = "referral" then [("text", pyTake text 5000)]
  else if doc_type = "insurance" then [("text", pyTake text 5000)]
  else if doc_type = "lab_report" then [("text", pyTake text 5000)]
  else [("document_type", doc_type), ("text", pyTake text 5000)]

/-- The inline error prefix of the selected assistant method's `except`
clause, per document-type tag. -/
def summary_error_prefix (doc_type : String) : String :=
  if doc_type = "discharge" then "Error generating discharge summary: "
  else if doc_type = "referral" then "Error generating referral letter: "
  else if doc_type = "insurance" then "Error generating insurance authorization: "
  else if doc_type = "lab_report" then "Error generating lab report summary: "
  else "Error generating summary: "

/-! ## The persistent store -/

/-- The two-table relational store: all `Document` rows and all `Summary`
rows. -/
structure DB where
  documents : List Document
  summaries : List Summary
  deriving DecidableEq, Repr

/-- `Document.objects.get(id=document_id)`: the first stored document with
the given id (`none` models the `DoesNotExist` exception). -/
def Document.objects_get (db : DB) (document_id : Nat) : Option Document :=
  db.documents.find? (fun d => d.id == document_id)

/-- `document.save()` on an already-stored row: replace the row with the
same primary key. -/
def DB.save_document (db : DB) (d : Document) : DB :=
  { db with documents := db.documents.map (fun x => if x.id = d.id then d else x) }

/-- `Summary.objects.create(...)`: append a new summary row. -/
def DB.create_summary (db : DB) (s : Summary) : DB :=
  { db with summaries := db.summaries ++ [s] }

/-- `Summary.objects.get(document=document)`: succeeds only when exactly
one summary row references the document; zero rows model `DoesNotExist`
and two or more model `MultipleObjectsReturned`. -/
def Summary.objects_get (db : DB) (document_id : Nat) : Except String Summary :=
  match db.summaries.filter (fun s => s.document == document_id) with
  | [] => Except.error "Summary matching query does not exist."
  | [s] => Except.ok s
  | l => Except.error ("get() returned more than one Summary -- it returned "
      ++ toString l.length ++ "!")

/-! ## services.py : DocumentProcessingService -/

/-- `file_type = document.file_type or 'pdf'` (`services.py` line 31):
Python `or` falls back to `'pdf'` on the falsy empty string. -/
def effective_file_type (d : Document) : String :=
  if d.file_type = "" then "pdf" else d.file_type

/-- `DocumentProcessingService.process_uploaded_document` (`services.py`
lines 13–64): load the document and mark it `processing`; run the
orchestrator on its file (`file_type or 'pdf'`); on a `completed` result
persist the extracted text, mark the document `completed`, create a
`Summary` row and return `True`; otherwise mark it `failed` and return
`False`.  A missing document raises, is caught, the inner re-fetch raises
again and is passed over, and `False` is returned.  `now` stands for
`timezone.now()` (used both for `processed_at` and the new summary's
`created_at` default). -/
def process_uploaded_document (env : Env) (now : Nat) (db : DB)
    (document_id : Nat) (doc_type : String) : DB × Bool :=
  match Document.objects_get db document_id with
  | none => (db, false)
  | some document =>
    let document := { document with status := "processing" }
    let db := db.save_document document
    let file_path := document.file_name
    let file_type := effective_file_type document
    let results := process_document env file_path file_type doc_type
    if results.status = "completed" then
      let document := { document with
        extracted_text := results.extracted_text,
        status := "completed",
        processed_at := some now }
      let db := db.save_document document
      let db := db.create_summary
        { document := document.id,
          summary_text := results.summary,
          extracted_entities := results.entities,
          model_used := "gemini-2.0-flash",
          confidence_score := (85 : ℚ) / 100,
          is_edited := false,
          edited_text := "",
          created_at := now }
      (db, true)
    else
      let document := { document with status := "failed" }
      (db.save_document document, false)

/-- The document data dictionary prepared by
`DocumentProcessingService.generate_soap_pdf` (`services.py` lines
74–77). -/
structure DocData where
  filename : String
  upload_date : Nat
  deriving DecidableEq, Repr

/-- A Django `FileResponse` as assembled in `generate_soap_pdf`
(`services.py` lines 86–91): the PDF buffer, the content type and the
attachment disposition. -/
structure FileResponse where
  content : String
  content_type : String
  content_disposition : String
  deriving DecidableEq, Repr

/-- Modelled from the spec: `SOAPNoteGenerator` is imported by
`services.py` from `ai_utils` but is not defined anywhere in the
repository's sources; per the spec (§1, §2) PDF generation is a plain
library call rendering the document data, summary text and entity map into
a PDF buffer, so its `generate_soap_pdf` method is modelled as a total
rendering function supplied by the caller. -/
def SOAPNoteGenerator.generate_soap_pdf
    (render : DocData → String → List (String × String) → String)
    (doc_data : DocData) (summary_text : String)
    (extracted_entities : List (String × String)) : String :=
  render doc_data summary_text extracted_entities

/-- `DocumentProcessingService.generate_soap_pdf` (`services.py` lines
66–94): look up the document and its unique summary, render the PDF and
wrap it in a `FileResponse`; any exception is re-raised as
`Error generating SOAP PDF: ...`.  `now_str` stands for the
`datetime.now()` timestamp fragment of the attachment filename. -/
def generate_soap_pdf (render : DocData → String → List (String × String) → String)
    (now_str : String) (db : DB) (document_id : Nat) : Except String FileResponse :=
  match Document.objects_get db document_id with
  | none => Except.error "Error generating SOAP PDF: Document matching query does not exist."
  | some document =>
    match Summary.objects_get db document.id with
    | Except.error e => Except.error ("Error generating SOAP PDF: " ++ e)
    | Except.ok summary =>
      let doc_data : DocData :=
        { filename := document.original_filename, upload_date := document.uploaded_at }
      let pdf_buffer := SOAPNoteGenerator.generate_soap_pdf render doc_data
        summary.summary_text summary.extracted_entities
      let filename := "SOAP_Note_" ++ toString document.id ++ "_" ++ now_str ++ ".pdf"
      Except.ok
        { content := pdf_buffer,
          content_type := "application/pdf",
          content_disposition := "attachment; filename=\"" ++ filename ++ "\"" }

/-! ## views.py -/

/-- The comparison realizing the `Summary.Meta` ordering `['-created_at']`:
`a` precedes `b` when `a` was created no earlier than `b`. -/
def created_at_desc (a b : Summary) : Bool :=
  decide (b.created_at ≤ a.created_at)

/-- The related queryset `doc.summaries` (`related_name='summaries'`) with
the `Summary.Meta` default ordering `['-created_at']` (newest first)
applied, as Django applies it to every queryset of the model. -/
def related_summaries (db : DB) (document_id : Nat) : List Summary :=
  (db.summaries.filter (fun s => s.document == document_id)).mergeSort created_at_desc

/-- Django `QuerySet.last()`: the last element under the queryset's
ordering (`None` on an empty queryset). -/
def qs_last (l : List Summary) : Option Summary :=
  l.getLast?

/-- The template context rendered by the `summary_detail` view. -/
structure SummaryDetailContext where
  doc : Document
  summary : Option Summary
  summary_html : Option String
  deriving DecidableEq, Repr

/-- `summary_detail` (`views.py` lines 42–57): fetch the document by id
scoped to the requesting user (`none` models the 404), take
`doc.summaries.last()`, render its final text through `markdown2.markdown`
(modelled by the `md` parameter) when present, and build the context. -/
def summary_detail (md : String → String) (db : DB) (request_user : Nat)
    (document_id : Nat) : Option SummaryDetailContext :=
  match db.documents.find? (fun d => d.id == document_id && d.user == request_user) with
  | none => none
  | some doc =>
    let summary := qs_last (related_summaries db doc.id)
    let summary_html := summary.map (fun s => md s.get_final_text)
    some { doc := doc, summary := summary, summary_html := summary_html }

/-- The orchestrator result a run of `process_uploaded_document` computes
for a stored document: `process_document` on the document's file path and
effective file type. -/
def run_result (env : Env) (doc : Document) (doc_type : String) : OrchestratorResult :=
  process_document env doc.file_name (effective_file_type doc) doc_type

/-- The `Summary` row `process_uploaded_document` creates on a `completed`
orchestrator result (`services.py` lines 43–49). -/
def run_summary (env : Env) (now : Nat) (doc : Document) (doc_type : String) : Summary :=
  { document := doc.id,
    summary_text := (run_result env doc doc_type).summary,
    extracted_entities := (run_result env doc doc_type).entities,
    model_used := "gemini-2.0-flash",
    confidence_score := (85 : ℚ) / 100,
    is_edited := false,
    edited_text := "",
    created_at := now }

/-! ## Concrete fixtures used by witnesses and counterexamples -/

/-- A freshly processed (still `pending`) one-page PDF document. -/
def doc0 : Document :=
  { id := 1, user := 9, file_name := "documents/2025/11/20/note.pdf",
    original_filename := "note.pdf", file_type := "pdf", file_size := 10,
    status := "pending", uploaded_at := 0, processed_at := none,
    extracted_text := "" }

/-- `doc0` after a successful earlier run: status `completed`. -/
def doc0_completed : Document :=
  { doc0 with
    extracted_text := "some clinical text",
    status := "completed",
    processed_at := some 5 }

/-- `doc0` as the model layer first sees it: the derived metadata fields
not yet populated. -/
def doc0_fresh : Document :=
  { doc0 with original_filename := "", file_type := "", file_size := 0 }

/-- An older summary of document 1 (created at tick 1). -/
def sum_old : Summary :=
  { document := 1, summary_text := "old", extracted_entities := [],
    model_used := "m", confidence_score := 0, is_edited := false,
    edited_text := "", created_at := 1 }

/-- A newer summary of document 1 (created at tick 2). -/
def sum_new : Summary :=
  { document := 1, summary_text := "new", extracted_entities := [],
    model_used := "m", confidence_score := 0, is_edited := false,
    edited_text := "", created_at := 2 }

/-- A store holding only the pending document. -/
def db_pending : DB := { documents := [doc0], summaries := [] }

/-- A store whose document 1 has accumulated two summaries. -/
def db_two : DB := { documents := [doc0], summaries := [sum_old, sum_new] }

/-- A store whose document 1 has exactly one summary. -/
def db_one : DB := { documents := [doc0], summaries := [sum_old] }

/-- A store whose document 1 is in the terminal state `completed`, with
the summary the completing run created. -/
def db_completed : DB := { documents := [doc0_completed], summaries := [sum_old] }

/-- An environment where extraction and both hosted-model calls succeed. -/
def env_ok : Env :=
  { extract_text_from_pdf := fun _ => Except.ok "some clinical text",
    chain_invoke := fun _ _ => Except.ok " model output ",
    parse_entities := fun _ => Except.ok [("diagnosis", "flu")] }

/-- An environment where extraction succeeds but every hosted-model call
errors. -/
def env_llm_error : Env :=
  { extract_text_from_pdf := fun _ => Except.ok "some clinical text",
    chain_invoke := fun _ _ => Except.error "boom",
    parse_entities := fun _ => Except.error "parse failure" }

/-- An environment where the PDF is unreadable: extraction raises. -/
def env_pdf_error : Env :=
  { extract_text_from_pdf := fun _ => Except.error "Error extracting PDF text: EOF marker not found",
    chain_invoke := fun _ _ => Except.ok "out",
    parse_entities := fun _ => Except.ok [] }

/-- An environment where the PDF yields no text at all. -/
def env_pdf_empty : Env :=
  { extract_text_from_pdf := fun _ => Except.ok "",
    chain_invoke := fun _ _ => Except.ok "out",
    parse_entities := fun _ => Except.ok [] }

/-! ## Supporting lemmas -/

theorem objects_get_some_id {db : DB} {id : Nat} {d : Document}
    (h : Document.objects_get db id = some d) : d.id = id := by
  simp only [Document.objects_get] at h
  simpa using List.find?_some h

theorem objects_get_none_not_mem {db : DB} {id : Nat} {d : Document}
    (h : Document.objects_get db id = none) (hm : d ∈ db.documents) : d.id ≠ id := by
  simp only [Document.objects_get] at h
  simpa using List.find?_eq_none.mp h d hm

theorem find?_id_replace (l : List Document) (d0 : Document) (id : Nat) (h : d0.id = id) :
    (l.map fun x => if x.id = d0.id then d0 else x).find? (fun x => x.id == id)
      = ((l.find? fun x => x.id == id).map fun x => if x.id = d0.id then d0 else x) := by
  subst h
  induction l with
  | nil => rfl
  | cons a t ih =>
    simp only [List.map_cons, List.find?_cons]
    by_cases ha : a.id = d0.id
    · simp [ha, -List.find?_map]
    · have hb : (a.id == d0.id) = false := beq_eq_false_iff_ne.mpr ha
      simp [ha, hb, ih, -List.find?_map]

theorem objects_get_save_document {db : DB} {id : Nat} {d0 : Document} (h : d0.id = id) :
    Document.objects_get (db.save_document d0) id
      = ((Document.objects_get db id).map fun x => if x.id = d0.id then d0 else x) := by
  simp only [Document.objects_get, DB.save_document]
  exact find?_id_replace _ _ _ h

theorem objects_get_save_of_get {db : DB} {id : Nat} {d d0 : Document}
    (hd : Document.objects_get db id = some d) (h0 : d0.id = id) :
    Document.objects_get (db.save_document d0) id = some d0 := by
  rw [objects_get_save_document h0, hd]
  have hdid := objects_get_some_id hd
  simp [hdid, h0]

theorem mem_save_document_of_id {db : DB} {d d0 : Document}
    (h : d ∈ (db.save_document d0).documents) (hid : d.id = d0.id) : d = d0 := by
  simp only [DB.save_document] at h
  rcases List.mem_map.mp h with ⟨x, _, hx⟩
  by_cases hxid : x.id = d0.id
  · simpa [hxid] using hx.symm
  · rw [if_neg hxid] at hx
    exact absurd (hx ▸ hid) hxid

theorem save_document_summaries (db : DB) (d0 : Document) :
    (db.save_document d0).summaries = db.summaries := rfl

theorem create_summary_documents (db : DB) (s : Summary) :
    (db.create_summary s).documents = db.documents := rfl

theorem process_document_pdf_ok {env : Env} {path ft dt txt : String}
    (hft : pyLower ft = "pdf") (hok : env.extract_text_from_pdf path = Except.ok txt)
    (hne : txt ≠ "") :
    process_document env path ft dt =
      { status := "completed", extracted_text := txt,
        entities := extract_medical_entities env txt,
        summary := generate_summary_for env txt dt, error := none } := by
  simp [process_document, hft, hok, hne]

theorem process_document_failed_status {env : Env} {path ft dt : String}
    (h : pyLower ft = "pdf" ∧ (env.extract_text_from_pdf path = Except.ok ""
          ∨ ∃ e, env.extract_text_from_pdf path = Except.error e)
      ∨ pyLower ft ≠ "pdf" ∧ pyLower ft ∉ (["jpg", "jpeg", "png"] : List String)) :
    (process_document env path ft dt).status = "failed" := by
  rcases h with ⟨hp, hok | ⟨e, herr⟩⟩ | ⟨hnp, hni⟩
  · simp [process_document, hp, hok]
  · simp [process_document, hp, herr]
  · simp [process_document, hnp, hni]

theorem process_document_image {env : Env} {path ft dt : String}
    (hft : pyLower ft ∈ (["jpg", "jpeg", "png"] : List String)) :
    process_document env path ft dt =
      { status := "completed",
        extracted_text := "OCR functionality coming soon. Upload PDF documents for now.",
        entities := extract_medical_entities env
          "OCR functionality coming soon. Upload PDF documents for now.",
        summary := generate_summary_for env
          "OCR functionality coming soon. Upload PDF documents for now." dt,
        error := none } := by
  simp only [List.mem_cons, List.mem_singleton] at hft
  rcases hft with h | h | h | h
  · simp [process_document, h, extract_text_from_image]
  · simp [process_document, h, extract_text_from_image]
  · simp [process_document, h, extract_text_from_image]
  · simp at h

theorem generate_summary_for_eq (env : Env) (text doc_type : String) :
    generate_summary_for env text doc_type =
      match env.chain_invoke (summary_template_for doc_type)
          (summary_inputs_for doc_type text) with
      | Except.ok response => response.trim
      | Except.error e => summary_error_prefix doc_type ++ e := by
  simp only [generate_summary_for, summary_template_for, summary_inputs_for,
    summary_error_prefix, generate_discharge_summary, generate_referral_letter,
    generate_insurance_authorization, generate_lab_report_summary, generate_summary]
  split_ifs <;> rfl

theorem getLast?_mem {α : Type} {l : List α} {a : α} (h : l.getLast? = some a) :
    a ∈ l := by
  induction l with
  | nil => simp at h
  | cons b t ih =>
    cases t with
    | nil =>
      simp only [List.getLast?_singleton, Option.some.injEq] at h
      simp [h]
    | cons c t2 =>
      rw [List.getLast?_cons_cons] at h
      exact List.mem_cons_of_mem _ (ih h)

theorem pairwise_getLast? {α : Type} {R : α → α → Prop} {l : List α} {a : α}
    (hp : l.Pairwise R) (h : l.getLast? = some a) : ∀ x ∈ l, x = a ∨ R x a := by
  induction l with
  | nil => simp at h
  | cons b t ih =>
    intro x hx
    cases t with
    | nil =>
      simp only [List.getLast?_singleton, Option.some.injEq] at h
      simp only [List.mem_singleton] at hx
      exact Or.inl (hx.trans h)
    | cons c t2 =>
      rw [List.getLast?_cons_cons] at h
      rcases List.mem_cons.mp hx with hxb | hxt
      · refine Or.inr ?_
        have hmem : a ∈ c :: t2 := getLast?_mem h
        have := (List.pairwise_cons.mp hp).1 a hmem
        rw [hxb]; exact this
      · exact ih (List.pairwise_cons.mp hp).2 h x hxt

theorem related_summaries_last_min {db : DB} {document_id : Nat} {s : Summary}
    (h : qs_last (related_summaries db document_id) = some s) :
    s ∈ db.summaries.filter (fun x => x.document == document_id)
    ∧ ∀ x ∈ db.summaries.filter (fun x => x.document == document_id),
        s.created_at ≤ x.created_at := by
  have htrans : ∀ a b c : Summary, created_at_desc a b → created_at_desc b c →
      created_at_desc a c := by
    intro a b c
    simp only [created_at_desc, decide_eq_true_eq]
    omega
  have htot : ∀ a b : Summary, created_at_desc a b || created_at_desc b a := by
    intro a b
    simp only [created_at_desc, Bool.or_eq_true, decide_eq_true_eq]
    omega
  have hsorted := List.sorted_mergeSort htrans htot
    (db.summaries.filter fun x => x.document == document_id)
  simp only [qs_last, related_summaries] at h
  have hmem0 : s ∈ (db.summaries.filter fun x => x.document == document_id).mergeSort
      created_at_desc := getLast?_mem h
  have hmem : s ∈ db.summaries.filter fun x => x.document == document_id :=
    List.mem_mergeSort.mp hmem0
  refine ⟨hmem, ?_⟩
  intro x hx
  have hx2 : x ∈ (db.summaries.filter fun y => y.document == document_id).mergeSort
      created_at_desc := List.mem_mergeSort.mpr hx
  rcases pairwise_getLast? hsorted h x hx2 with rfl | hR
  · exact Nat.le_refl _
  · simpa [created_at_desc] using hR

theorem process_uploaded_document_none {env : Env} {now : Nat} {db : DB}
    {document_id : Nat} {doc_type : String}
    (hget : Document.objects_get db document_id = none) :
    process_uploaded_document env now db document_id doc_type = (db, false) := by
  simp [process_uploaded_document, hget]

theorem process_uploaded_document_success {env : Env} {now : Nat} {db : DB}
    {document_id : Nat} {doc_type : String} {doc : Document}
    (hget : Document.objects_get db document_id = some doc)
    (hres : (run_result env doc doc_type).status = "completed") :
    process_uploaded_document env now db document_id doc_type =
      (((db.save_document { doc with status := "processing" }).save_document
          { doc with
            status := "completed",
            extracted_text := (run_result env doc doc_type).extracted_text,
            processed_at := some now }).create_summary
          (run_summary env now doc doc_type),
       true) := by
  simp only [process_uploaded_document, hget]
  split
  · rfl
  · next hcond => exact absurd hres hcond

theorem process_uploaded_document_failed {env : Env} {now : Nat} {db : DB}
    {document_id : Nat} {doc_type : String} {doc : Document}
    (hget : Document.objects_get db document_id = some doc)
    (hres : (run_result env doc doc_type).status ≠ "completed") :
    process_uploaded_document env now db document_id doc_type =
      ((db.save_document { doc with status := "processing" }).save_document
          { doc with status := "failed" },
       false) := by
  simp only [process_uploaded_document, hget]
  split
  · next hcond => exact absurd hcond hres
  · rfl

theorem objects_get_create_summary (db : DB) (s : Summary) (document_id : Nat) :
    Document.objects_get (db.create_summary s) document_id
      = Document.objects_get db document_id := rfl

theorem mergeSort_pair {α : Type} (le : α → α → Bool) (a b : α) :
    [a, b].mergeSort le = if le a b then [a, b] else [b, a] := by
  rw [List.mergeSort]
  simp only [List.splitInTwo_fst, List.splitInTwo_snd, List.take_succ_cons,
    List.take_zero, List.drop_succ_cons, List.drop_zero, List.mergeSort_singleton,
    List.cons_merge_cons]
  by_cases h : le a b
  · simp [h]
  · simp [h]

theorem document_save_frame {d : Document} (sz : Nat) (h : d.original_filename ≠ "") :
    (d.save sz).original_filename = d.original_filename
    ∧ (d.save sz).file_type = d.file_type
    ∧ (d.save sz).file_size = d.file_size := by
  simp [Document.save, h]

theorem summary_detail_db_two :
    summary_detail (fun t => t) db_two 9 1
      = some { doc := doc0, summary := some sum_old, summary_html := some "old" } := by
  have hms : related_summaries db_two 1 = [sum_new, sum_old] := by
    unfold related_summaries
    have hflt : db_two.summaries.filter (fun s => s.document == 1) = [sum_old, sum_new] := rfl
    rw [hflt, mergeSort_pair]
    norm_num [created_at_desc, sum_old, sum_new]
  have hfind : db_two.documents.find? (fun d => d.id == 1 && d.user == 9) = some doc0 := rfl
  simp only [summary_detail, hfind]
  rw [show doc0.id = 1 from rfl, hms]
  rfl

/-! ## The claims -/

/-- C1: at the end of any run of `process_uploaded_document`, if the
processed Document's status is `completed` then at least one `Summary`
record for that Document exists; a run never terminates with status
`completed` and zero summaries. -/
theorem process_completed_has_summary (env : Env) (now : Nat) (db : DB)
    (document_id : Nat) (doc_type : String) (d : Document)
    (hmem : d ∈ (process_uploaded_document env now db document_id doc_type).1.documents)
    (hid : d.id = document_id)
    (hstatus : d.status = "completed") :
    ∃ s, s ∈ (process_uploaded_document env now db document_id doc_type).1.summaries
      ∧ s.document = document_id := by
  cases hget : Document.objects_get db document_id with
  | none =>
    rw [process_uploaded_document_none hget] at hmem
    exact absurd hid (objects_get_none_not_mem hget hmem)
  | some doc =>
    have hdid := objects_get_some_id hget
    by_cases hres : (run_result env doc doc_type).status = "completed"
    · rw [process_uploaded_document_success hget hres]
      refine ⟨run_summary env now doc doc_type, ?_, hdid⟩
      simp [DB.create_summary]
    · rw [process_uploaded_document_failed hget hres] at hmem
      have hd : d = { doc with status := "failed" } :=
        mem_save_document_of_id hmem (by rw [hid]; exact hdid.symm)
      rw [hd] at hstatus
      simp at hstatus

/-- Witness for C1: a concrete successful run on the pending document. -/
theorem process_completed_has_summary_witness :
    ∃ s, s ∈ (process_uploaded_document env_ok 5 db_pending 1 "general").1.summaries
      ∧ s.document = 1 :=
  process_completed_has_summary env_ok 5 db_pending 1 "general" doc0_completed
    (by decide) (by decide) (by decide)

/-- C2: when text extraction yields empty text, the file is unreadable
(extraction raises), or the file type is neither PDF nor a supported image
type, the run marks the Document `failed` (never `completed`), returns
`False`, and creates no new `Summary`. -/
theorem extraction_failure_yields_failed (env : Env) (now : Nat) (db : DB)
    (document_id : Nat) (doc_type : String) (doc : Document)
    (hget : Document.objects_get db document_id = some doc)
    (hcond : pyLower (effective_file_type doc) = "pdf"
        ∧ (env.extract_text_from_pdf doc.file_name = Except.ok ""
           ∨ ∃ e, env.extract_text_from_pdf doc.file_name = Except.error e)
      ∨ pyLower (effective_file_type doc) ≠ "pdf"
        ∧ pyLower (effective_file_type doc) ∉ (["jpg", "jpeg", "png"] : List String)) :
    (process_uploaded_document env now db document_id doc_type).2 = false
    ∧ (Document.objects_get (process_uploaded_document env now db document_id doc_type).1
        document_id).map Document.status = some "failed"
    ∧ (process_uploaded_document env now db document_id doc_type).1.summaries
        = db.summaries := by
  have hdid := objects_get_some_id hget
  have hfail : (run_result env doc doc_type).status = "failed" :=
    process_document_failed_status hcond
  have hres : (run_result env doc doc_type).status ≠ "completed" := by
    rw [hfail]; decide
  rw [process_uploaded_document_failed hget hres]
  refine ⟨rfl, ?_, rfl⟩
  have h1 : Document.objects_get (db.save_document { doc with status := "processing" })
      document_id = some { doc with status := "processing" } :=
    objects_get_save_of_get hget hdid
  have h2 : Document.objects_get ((db.save_document { doc with status := "processing" }).save_document
      { doc with status := "failed" }) document_id = some { doc with status := "failed" } :=
    objects_get_save_of_get h1 hdid
  rw [h2]
  rfl

/-- Witness for C2: a PDF from which no text can be extracted. -/
theorem extraction_failure_yields_failed_witness :
    (process_uploaded_document env_pdf_empty 5 db_pending 1 "general").2 = false
    ∧ (Document.objects_get (process_uploaded_document env_pdf_empty 5 db_pending 1 "general").1
        1).map Document.status = some "failed"
    ∧ (process_uploaded_document env_pdf_empty 5 db_pending 1 "general").1.summaries
        = db_pending.summaries :=
  extraction_failure_yields_failed env_pdf_empty 5 db_pending 1 "general" doc0
    (by decide) (Or.inl ⟨by decide, Or.inl rfl⟩)

/-- C3: when extraction succeeds but the hosted-model calls error, the
errors are swallowed: the run still returns `True` and marks the Document
`completed`, and the created `Summary` carries the placeholder entity map
(each of the seven schema keys bound to `Not extracted`) and the inline
error string of the selected generator as its summary text. -/
theorem llm_errors_still_complete (env : Env) (now : Nat) (db : DB)
    (document_id : Nat) (doc_type : String) (doc : Document) (txt e1 e2 : String)
    (hget : Document.objects_get db document_id = some doc)
    (hft : pyLower (effective_file_type doc) = "pdf")
    (hpdf : env.extract_text_from_pdf doc.file_name = Except.ok txt)
    (htxt : txt ≠ "")
    (hent : env.chain_invoke entity_prompt [("text", pyTake txt 4000)] = Except.error e1)
    (hsum : env.chain_invoke (summary_template_for doc_type) (summary_inputs_for doc_type txt)
        = Except.error e2) :
    (process_uploaded_document env now db document_id doc_type).2 = true
    ∧ (Document.objects_get (process_uploaded_document env now db document_id doc_type).1
        document_id).map Document.status = some "completed"
    ∧ (process_uploaded_document env now db document_id doc_type).1.summaries
        = db.summaries ++
          [{ document := document_id,
             summary_text := summary_error_prefix doc_type ++ e2,
             extracted_entities := placeholder_entities,
             model_used := "gemini-2.0-flash",
             confidence_score := (85 : ℚ) / 100,
             is_edited := false, edited_text := "", created_at := now }] := by
  have hdid := objects_get_some_id hget
  have hrun : run_result env doc doc_type =
      { status := "completed", extracted_text := txt,
        entities := extract_medical_entities env txt,
        summary := generate_summary_for env txt doc_type, error := none } :=
    process_document_pdf_ok hft hpdf htxt
  have hres : (run_result env doc doc_type).status = "completed" := by rw [hrun]
  have hents : extract_medical_entities env txt = placeholder_entities := by
    simp [extract_medical_entities, hent]
  have hsumm : generate_summary_for env txt doc_type = summary_error_prefix doc_type ++ e2 := by
    rw [generate_summary_for_eq, hsum]
  rw [process_uploaded_document_success hget hres]
  refine ⟨rfl, ?_, ?_⟩
  · have h1 : Document.objects_get (db.save_document { doc with status := "processing" })
        document_id = some { doc with status := "processing" } :=
      objects_get_save_of_get hget hdid
    have h2 : Document.objects_get ((db.save_document { doc with status := "processing" }).save_document
        { doc with
          status := "completed",
          extracted_text := (run_result env doc doc_type).extracted_text,
          processed_at := some now }) document_id
        = some { doc with
            status := "completed",
            extracted_text := (run_result env doc doc_type).extracted_text,
            processed_at := some now } :=
      objects_get_save_of_get h1 hdid
    rw [objects_get_create_summary, h2]
    rfl
  · simp only [DB.create_summary, save_document_summaries, run_summary, hrun, hdid, hents, hsumm]

/-- Witness for C3: a run in which every hosted-model call errors. -/
theorem llm_errors_still_complete_witness :
    (process_uploaded_document env_llm_error 5 db_pending 1 "general").2 = true
    ∧ (Document.objects_get (process_uploaded_document env_llm_error 5 db_pending 1 "general").1
        1).map Document.status = some "completed"
    ∧ (process_uploaded_document env_llm_error 5 db_pending 1 "general").1.summaries
        = db_pending.summaries ++
          [{ document := 1,
             summary_text := summary_error_prefix "general" ++ "boom",
             extracted_entities := placeholder_entities,
             model_used := "gemini-2.0-flash",
             confidence_score := (85 : ℚ) / 100,
             is_edited := false, edited_text := "", created_at := 5 }] :=
  llm_errors_still_complete env_llm_error 5 db_pending 1 "general" doc0
    "some clinical text" "boom" "boom"
    (by decide) (by decide) rfl (by decide) rfl rfl

/-- C4 counterexample: document 1 of `db_two` has summaries created at
ticks 1 and 2, yet the summary-detail view renders the one created at
tick 1 — not the most recently created one. -/
theorem summary_detail_not_most_recent :
    ((summary_detail (fun t => t) db_two 9 1).map fun c => c.summary.map Summary.created_at)
      = some (some 1)
    ∧ sum_new ∈ db_two.summaries ∧ sum_new.document = 1 ∧ sum_new.created_at = 2
    ∧ (1 : Nat) ≠ 2 := by
  refine ⟨?_, by decide, rfl, rfl, by decide⟩
  rw [summary_detail_db_two]
  rfl

/-- C4 as amended: when a Document has at least one Summary, the
summary-detail view selects a Summary of that Document with the LEAST
`created_at` (the related queryset is ordered newest-first by
`Summary.Meta.ordering` and `.last()` takes the final element of that
ordering, i.e. the oldest one). -/
theorem summary_detail_selects_earliest (md : String → String) (db : DB)
    (request_user document_id : Nat) (ctx : SummaryDetailContext) (s : Summary)
    (hctx : summary_detail md db request_user document_id = some ctx)
    (hs : ctx.summary = some s) :
    s ∈ db.summaries.filter (fun x => x.document == document_id)
    ∧ ∀ x ∈ db.summaries.filter (fun x => x.document == document_id),
        s.created_at ≤ x.created_at := by
  cases hfind : db.documents.find? (fun d => d.id == document_id && d.user == request_user) with
  | none =>
    rw [summary_detail, hfind] at hctx
    exact absurd hctx (by simp)
  | some doc =>
    have hdocid : doc.id = document_id := by
      have := List.find?_some hfind
      simp only [Bool.and_eq_true, beq_iff_eq] at this
      exact this.1
    simp only [summary_detail, hfind] at hctx
    rw [Option.some.injEq] at hctx
    rw [← hctx] at hs
    simp only at hs
    rw [hdocid] at hs
    exact related_summaries_last_min hs

/-- Witness for the amended C4 at the two-summary store. -/
theorem summary_detail_selects_earliest_witness :
    sum_old ∈ db_two.summaries.filter (fun x => x.document == 1)
    ∧ ∀ x ∈ db_two.summaries.filter (fun x => x.document == 1),
        sum_old.created_at ≤ x.created_at :=
  summary_detail_selects_earliest (fun t => t) db_two 9 1
    { doc := doc0, summary := some sum_old, summary_html := some "old" } sum_old
    summary_detail_db_two rfl

/-- C5 counterexample: invoking the pipeline again on a Document already
in the terminal state `completed`, with an unreadable file, moves its
status to `failed` — an operation of the system changes a terminal
status. -/
theorem status_regression_counterexample :
    (Document.objects_get db_completed 1).map Document.status = some "completed"
    ∧ (Document.objects_get (process_uploaded_document env_pdf_error 7 db_completed 1
        "general").1 1).map Document.status = some "failed" := by
  exact ⟨rfl, rfl⟩

/-- C5 as amended: within a single run of `process_uploaded_document` on
an existing Document the status first becomes `processing` and finally a
terminal value (`completed` exactly when the run returns `True`, else
`failed`), and the model-layer `Document.save` never changes the status;
but a new invocation of the pipeline on a Document in a terminal state
sets it back to `processing` and may end at either terminal value, so
terminal states persist only in the absence of further runs. -/
theorem process_run_status_discipline (env : Env) (now : Nat) (db : DB)
    (document_id : Nat) (doc_type : String) (doc : Document)
    (hget : Document.objects_get db document_id = some doc) :
    (Document.objects_get (db.save_document { doc with status := "processing" })
        document_id).map Document.status = some "processing"
    ∧ ((Document.objects_get (process_uploaded_document env now db document_id doc_type).1
          document_id).map Document.status = some "completed"
       ∨ (Document.objects_get (process_uploaded_document env now db document_id doc_type).1
          document_id).map Document.status = some "failed")
    ∧ ((process_uploaded_document env now db document_id doc_type).2 = true
        ↔ (Document.objects_get (process_uploaded_document env now db document_id doc_type).1
            document_id).map Document.status = some "completed")
    ∧ (∀ (d : Document) (sz : Nat), (Document.save d sz).status = d.status) := by
  have hdid := objects_get_some_id hget
  have h1 : Document.objects_get (db.save_document { doc with status := "processing" })
      document_id = some { doc with status := "processing" } :=
    objects_get_save_of_get hget hdid
  have hsave : ∀ (d : Document) (sz : Nat), (Document.save d sz).status = d.status := by
    intro d sz
    rw [Document.save]
    split <;> rfl
  by_cases hres : (run_result env doc doc_type).status = "completed"
  · have h2 : Document.objects_get (process_uploaded_document env now db document_id
        doc_type).1 document_id
        = some { doc with
            status := "completed",
            extracted_text := (run_result env doc doc_type).extracted_text,
            processed_at := some now } := by
      rw [process_uploaded_document_success hget hres, objects_get_create_summary]
      exact objects_get_save_of_get h1 hdid
    refine ⟨by rw [h1]; rfl, Or.inl (by rw [h2]; rfl), ?_, hsave⟩
    constructor
    · intro _; rw [h2]; rfl
    · intro _; rw [process_uploaded_document_success hget hres]
  · have h2 : Document.objects_get (process_uploaded_document env now db document_id
        doc_type).1 document_id = some { doc with status := "failed" } := by
      rw [process_uploaded_document_failed hget hres]
      exact objects_get_save_of_get h1 hdid
    refine ⟨by rw [h1]; rfl, Or.inr (by rw [h2]; rfl), ?_, hsave⟩
    constructor
    · intro htrue
      rw [process_uploaded_document_failed hget hres] at htrue
      simp at htrue
    · intro hcomp
      rw [h2] at hcomp
      simp at hcomp

/-- Witness for the amended C5 at a concrete re-run on a completed
document. -/
theorem process_run_status_discipline_witness :
    (Document.objects_get (process_uploaded_document env_pdf_error 7 db_completed 1
        "general").1 1).map Document.status = some "completed"
    ∨ (Document.objects_get (process_uploaded_document env_pdf_error 7 db_completed 1
        "general").1 1).map Document.status = some "failed" :=
  (process_run_status_discipline env_pdf_error 7 db_completed 1 "general" doc0_completed
    (by decide)).2.1

/-- C6: summary generation selects its prompt template as a pure function
of the document-type tag alone: the tags `discharge`, `referral`,
`insurance` and `lab_report` each select their one fixed template, every
other tag selects the fifth, general template, and the generated summary
depends on the environment only through the hosted-model chain of the
selected template (so two calls with the same tag always use the same
template, whatever the input text). -/
theorem summary_template_selection :
    summary_template_for "discharge" = discharge_prompt
    ∧ summary_template_for "referral" = referral_prompt
    ∧ summary_template_for "insurance" = authorization_prompt
    ∧ summary_template_for "lab_report" = lab_report_prompt
    ∧ (∀ doc_type, doc_type ∉ (["discharge", "referral", "insurance", "lab_report"] : List String) →
        summary_template_for doc_type = summary_prompt)
    ∧ (∀ (env env2 : Env) (text doc_type : String),
        (∀ inputs, env.chain_invoke (summary_template_for doc_type) inputs
          = env2.chain_invoke (summary_template_for doc_type) inputs) →
        generate_summary_for env text doc_type = generate_summary_for env2 text doc_type) := by
  refine ⟨rfl, rfl, rfl, rfl, ?_, ?_⟩
  · intro doc_type hmem
    simp only [List.mem_cons, List.mem_singleton, not_or] at hmem
    obtain ⟨h1, h2, h3, h4, _⟩ := hmem
    simp [summary_template_for, h1, h2, h3, h4]
  · intro env env2 text doc_type hinv
    rw [generate_summary_for_eq, generate_summary_for_eq,
      hinv (summary_inputs_for doc_type text)]

/-- C7: the summary-detail view on an owned Document with zero Summary
records renders without error, with both the summary and the rendered
summary HTML absent. -/
theorem summary_detail_without_summaries (md : String → String) (db : DB)
    (request_user document_id : Nat) (d : Document)
    (hmem : d ∈ db.documents) (hid : d.id = document_id) (huser : d.user = request_user)
    (hempty : db.summaries.filter (fun s => s.document == document_id) = []) :
    ∃ ctx, summary_detail md db request_user document_id = some ctx
      ∧ ctx.summary = none ∧ ctx.summary_html = none := by
  have hf : (db.documents.find? (fun x => x.id == document_id && x.user == request_user)).isSome := by
    rw [List.find?_isSome]
    exact ⟨d, hmem, by simp [hid, huser]⟩
  obtain ⟨doc, hdoc⟩ := Option.isSome_iff_exists.mp hf
  have hdocid : doc.id = document_id := by
    have := List.find?_some hdoc
    simp only [Bool.and_eq_true, beq_iff_eq] at this
    exact this.1
  have hnone : qs_last (related_summaries db doc.id) = none := by
    unfold qs_last related_summaries
    rw [hdocid, hempty]
    simp
  refine ⟨{ doc := doc, summary := none, summary_html := none }, ?_, rfl, rfl⟩
  simp only [summary_detail, hdoc, hnone]
  rfl

/-- Witness for C7: the pending store, which holds no summaries at all. -/
theorem summary_detail_without_summaries_witness :
    ∃ ctx, summary_detail (fun t => t) db_pending 9 1 = some ctx
      ∧ ctx.summary = none ∧ ctx.summary_html = none :=
  summary_detail_without_summaries (fun t => t) db_pending 9 1 doc0
    (by decide) rfl rfl rfl

/-- C8: `original_filename`, `file_type` and `file_size` are derived from
the uploaded file exactly once, at the first save (while
`original_filename` is still empty); once set they are never recomputed:
any later save leaves all three unchanged, even when the underlying file
has changed. -/
theorem document_save_metadata_once :
    (∀ (d : Document) (sz : Nat), d.file_name ≠ "" → d.original_filename = "" →
      (d.save sz).original_filename = py_split_last d.file_name '/'
      ∧ (d.save sz).file_type = pyLower (py_split_last (py_split_last d.file_name '/') '.')
      ∧ (d.save sz).file_size = sz)
    ∧ (∀ (d : Document) (sz : Nat), d.original_filename ≠ "" →
      (d.save sz).original_filename = d.original_filename
      ∧ (d.save sz).file_type = d.file_type
      ∧ (d.save sz).file_size = d.file_size)
    ∧ (∀ (d : Document) (sz sz2 : Nat) (f2 : String),
      d.file_name ≠ "" → d.original_filename = "" → py_split_last d.file_name '/' ≠ "" →
      ({ d.save sz with file_name := f2 }.save sz2).original_filename
          = (d.save sz).original_filename
      ∧ ({ d.save sz with file_name := f2 }.save sz2).file_type = (d.save sz).file_type
      ∧ ({ d.save sz with file_name := f2 }.save sz2).file_size = (d.save sz).file_size) := by
  refine ⟨?_, ?_, ?_⟩
  · intro d sz h1 h2
    simp [Document.save, h1, h2]
  · intro d sz h
    exact document_save_frame sz h
  · intro d sz sz2 f2 h1 h2 h3
    have hset : (d.save sz).original_filename = py_split_last d.file_name '/' := by
      simp [Document.save, h1, h2]
    have hne : ({ d.save sz with file_name := f2 } : Document).original_filename ≠ "" := by
      show (d.save sz).original_filename ≠ ""
      rw [hset]
      exact h3
    obtain ⟨ha, hb, hc⟩ := document_save_frame sz2 hne
    exact ⟨ha, hb, hc⟩

/-- C9: for image file types (`jpg`, `jpeg`, `png`, case-insensitively)
text extraction never fails: it returns the fixed non-empty OCR
placeholder, so the empty-text failure branch is unreachable and the
pipeline always reaches the hosted-model calls and reports `completed`
with the placeholder as its extracted text. -/
theorem image_extraction_never_fails (env : Env) (path doc_type ft : String)
    (hft : pyLower ft ∈ (["jpg", "jpeg", "png"] : List String)) :
    (process_document env path ft doc_type).status = "completed"
    ∧ (process_document env path ft doc_type).extracted_text
        = "OCR functionality coming soon. Upload PDF documents for now." := by
  rw [process_document_image hft]
  exact ⟨rfl, rfl⟩

/-- Witness for C9 at the upper-case file type `JPG`. -/
theorem image_extraction_never_fails_witness :
    (process_document env_ok "p" "JPG" "general").status = "completed"
    ∧ (process_document env_ok "p" "JPG" "general").extracted_text
        = "OCR functionality coming soon. Upload PDF documents for now." :=
  image_extraction_never_fails env_ok "p" "general" "JPG" (by decide)

/-- C10: `generate_soap_pdf` succeeds exactly when the Document has one
single Summary: with exactly one summary row a PDF response is returned,
with zero or with two or more it raises instead. -/
theorem generate_soap_pdf_requires_unique_summary
    (render : DocData → String → List (String × String) → String)
    (now_str : String) (db : DB) (document_id : Nat) (d : Document)
    (hget : Document.objects_get db document_id = some d) :
    ((db.summaries.filter (fun s => s.document == document_id)).length = 1 →
      ∃ resp, generate_soap_pdf render now_str db document_id = Except.ok resp)
    ∧ ((db.summaries.filter (fun s => s.document == document_id)).length ≠ 1 →
      ∃ e, generate_soap_pdf render now_str db document_id = Except.error e) := by
  have hdid := objects_get_some_id hget
  constructor
  · intro hlen
    obtain ⟨s, hs⟩ := List.length_eq_one.mp hlen
    have hgot : Summary.objects_get db d.id = Except.ok s := by
      unfold Summary.objects_get
      rw [hdid, hs]
    have hout : generate_soap_pdf render now_str db document_id = Except.ok
        { content := render { filename := d.original_filename, upload_date := d.uploaded_at }
            s.summary_text s.extracted_entities,
          content_type := "application/pdf",
          content_disposition := "attachment; filename=\""
            ++ ("SOAP_Note_" ++ toString d.id ++ "_" ++ now_str ++ ".pdf") ++ "\"" } := by
      simp only [generate_soap_pdf, hget, hgot, SOAPNoteGenerator.generate_soap_pdf]
    exact ⟨_, hout⟩
  · intro hlen
    cases hflt : db.summaries.filter (fun s => s.document == document_id) with
    | nil =>
      have hgot : Summary.objects_get db d.id
          = Except.error "Summary matching query does not exist." := by
        unfold Summary.objects_get
        rw [hdid, hflt]
      refine ⟨"Error generating SOAP PDF: " ++ "Summary matching query does not exist.", ?_⟩
      simp only [generate_soap_pdf, hget, hgot]
    | cons a t =>
      cases t with
      | nil => exact absurd (by rw [hflt]; rfl) hlen
      | cons b t2 =>
        have hgot : Summary.objects_get db d.id
            = Except.error ("get() returned more than one Summary -- it returned "
                ++ toString (a :: b :: t2).length ++ "!") := by
          unfold Summary.objects_get
          rw [hdid, hflt]
        refine ⟨"Error generating SOAP PDF: "
          ++ ("get() returned more than one Summary -- it returned "
              ++ toString (a :: b :: t2).length ++ "!"), ?_⟩
        simp only [generate_soap_pdf, hget, hgot]

/-- Witness for C10: success with exactly one summary, failure with two. -/
theorem generate_soap_pdf_requires_unique_summary_witness :
    (∃ resp, generate_soap_pdf (fun _ s _ => s) "T" db_one 1 = Except.ok resp)
    ∧ (∃ e, generate_soap_pdf (fun _ s _ => s) "T" db_two 1 = Except.error e) :=
  ⟨(generate_soap_pdf_requires_unique_summary (fun _ s _ => s) "T" db_one 1 doc0
      (by decide)).1 (by decide),
   (generate_soap_pdf_requires_unique_summary (fun _ s _ => s) "T" db_two 1 doc0
      (by decide)).2 (by decide)⟩

end HCG
